import Mathlib

/-!
Verification of the server-demise Kafka pipeline (kafka-processors).

Shallow embedding of the pipeline's message model and of the four stage
processors: ServerCheckProcessor, ServerPowerOffProcessor,
ServerCoolingPeriodProcessor and ServerDemiseProcessor
(src/kafka-processors/processors/*.py).

Modelling conventions, used uniformly below:
* Python dicts (messages and payloads) are association lists
  `List (String × JVal)`; `dict.get(k)` is `getField`, `dict.get(k, d)`
  is `getD`.  Literal dicts have distinct keys, so first-match lookup is
  faithful.
* `datetime` values are integers (seconds since the epoch); `isoformat()`
  is rendered by `isoStr`.  Arithmetic on datetimes (`>=`, subtraction,
  `total_seconds()/3600`) is exact integer/rational arithmetic.
* Nondeterministic inputs of the code — `uuid.uuid4()`, `datetime.now()`,
  the `random`-driven oracle outcomes — are explicit parameters of the
  embedded functions.
* A Python function that can raise is either totalised exactly as the
  source's `try/except` does, or returns through an explicit error branch.
-/

/-- A JSON-like Python value as carried inside pipeline messages. -/
inductive JVal where
  | s (v : String)
  | i (v : Int)
  | q (v : Rat)
  | b (v : Bool)
  | null
  | o (fields : List (String × JVal))
  | arr (items : List JVal)

/-- A Python dict: association list of string keys to values. -/
abbrev JObj := List (String × JVal)

/-- `d.get(k)`: first binding of key `k`, `none` when absent. -/
def getField (d : JObj) (k : String) : Option JVal :=
  (d.find? (fun p => p.1 == k)).map (fun p => p.2)

/-- `d.get(k, dflt)`. -/
def getD (d : JObj) (k : String) (dflt : JVal) : JVal :=
  (getField d k).getD dflt

/-- Python truthiness of a value (`if not server_id: ...`). -/
def truthy : JVal → Bool
  | JVal.s v => v ≠ ""
  | JVal.i v => v ≠ 0
  | JVal.q v => v ≠ 0
  | JVal.b v => v
  | JVal.null => false
  | JVal.o fields => !fields.isEmpty
  | JVal.arr items => !items.isEmpty

/-- Truthiness of an optional lookup (`dict.get(k)` then `if not x`). -/
def truthyOpt : Option JVal → Bool
  | none => false
  | some v => truthy v

/-- Python `dict.get(k) == lit` for a string literal `lit`: only a string
value equal to `lit` compares equal; absence (`None`) and every other
value type compare unequal. -/
def isStrField (m : JObj) (k lit : String) : Bool :=
  match getField m k with
  | some (JVal.s v) => v == lit
  | _ => false

/-- Python `str(v)`.  Exact for strings, integers, booleans and `None`;
container and rational values (never consulted by any claim) are rendered
by a placeholder. -/
def pyStr : JVal → String
  | JVal.s v => v
  | JVal.i v => toString v
  | JVal.b true => "True"
  | JVal.b false => "False"
  | JVal.null => "None"
  | JVal.q _ => "<float>"
  | JVal.o _ => "<dict>"
  | JVal.arr _ => "<list>"

/-- `datetime.isoformat()` under the integer-seconds model of datetimes. -/
def isoStr (t : Int) : String := toString t

/-! ### Routing predicates (`should_process_message`)

One per stage processor; each is a pure function of the message's
`action` and `status` fields, read with `dict.get`. -/

/-- `ServerCheckProcessor.should_process_message`. -/
def check_should (m : JObj) : Bool :=
  isStrField m "action" "check_server" && isStrField m "status" "pending"

/-- `ServerPowerOffProcessor.should_process_message`. -/
def poweroff_should (m : JObj) : Bool :=
  isStrField m "action" "poweroff_server" && isStrField m "status" "pending"

/-- `ServerCoolingPeriodProcessor.should_process_message`. -/
def cooling_should (m : JObj) : Bool :=
  isStrField m "action" "start_cooling_period" && isStrField m "status" "pending"

/-- `ServerDemiseProcessor.should_process_message`. -/
def demise_should (m : JObj) : Bool :=
  isStrField m "action" "demise_server" && isStrField m "status" "pending"

/-- At most one of four booleans is `true`. -/
def atMostOne (a b c d : Bool) : Prop :=
  a.toNat + b.toNat + c.toNat + d.toNat ≤ 1

/-! ### The portal-existence oracle (`ServerCheckProcessor._check_server_in_portal`)

`int(server_id)` is modelled by `pythonInt`: surrounding whitespace is
stripped, an optional single sign is allowed, then one or more decimal
digits with single underscores permitted between digits — exactly the
`int()` grammar for decimal string literals. -/

/-- Digit run with optional single underscores between digits:
`parseDigits c rest` parses `c :: rest` where `c` must be a digit. -/
def parseDigitsFrom (acc : Nat) : List Char → Option Nat
  | [] => some acc
  | '_' :: c :: rest =>
      if c.isDigit then parseDigitsFrom (acc * 10 + (c.toNat - 48)) rest
      else none
  | c :: rest =>
      if c == '_' then none
      else if c.isDigit then parseDigitsFrom (acc * 10 + (c.toNat - 48)) rest
      else none

/-- One or more digits (underscore rules as in Python), else `none`. -/
def parseUNat : List Char → Option Nat
  | [] => none
  | c :: rest =>
      if c.isDigit then parseDigitsFrom (c.toNat - 48) rest else none

/-- Whitespace stripping on both ends (`int()` ignores surrounding
whitespace). -/
def trimChars (cs : List Char) : List Char :=
  ((cs.dropWhile Char.isWhitespace).reverse.dropWhile Char.isWhitespace).reverse

/-- Python `int(s)` for a decimal string, `none` when it raises
`ValueError`. -/
def pythonInt (s : String) : Option Int :=
  match trimChars s.toList with
  | '+' :: cs => (parseUNat cs).map (fun n => (n : Int))
  | '-' :: cs => (parseUNat cs).map (fun n => -(n : Int))
  | cs => (parseUNat cs).map (fun n => (n : Int))

/-- ASCII upper-casing, modelling `str.upper()` on the identifiers the
system uses. -/
def asciiUpper (s : String) : List Char := s.toList.map Char.toUpper

/-- The reference implementation's valid non-numeric id beginnings. -/
def validStarts : List (List Char) :=
  [['S', 'R', 'V'], ['H', 'O', 'S', 'T'], ['V', 'M'],
   ['P', 'R', 'O', 'D'], ['T', 'E', 'S', 'T']]

/-- `ServerCheckProcessor._check_server_in_portal`: numeric ids exist
iff they are in 100..999; on `ValueError` the uppercased id must start
with one of `validStarts`. -/
def check_server_in_portal (server_id : String) : Bool :=
  match pythonInt server_id with
  | some n => decide (100 ≤ n) && decide (n ≤ 999)
  | none => validStarts.any (fun v => List.isPrefixOf v (asciiUpper server_id))

/-! ### Common message-construction helpers -/

/-- `original_message.get('original_request_id', original_message.get('id'))`
as used by the PowerOff, Cooling and Demise stages. -/
def origReqId (m : JObj) : JVal :=
  match getField m "original_request_id" with
  | some v => v
  | none => getD m "id" JVal.null

/-- `message_data.get('data', {})` — the raw `data` value, `{}` when the
key is absent. -/
def rawData (m : JObj) : JVal := getD m "data" (JVal.o [])

/-- The `data` payload as a dict: `{}` when absent, `none` when the value
is present but not a dict (in the source, attribute access on it raises
and the stage's `except` clause answers with its generic error
response). -/
def dataObj (m : JObj) : Option JObj :=
  match getField m "data" with
  | none => some []
  | some (JVal.o fields) => some fields
  | some _ => none

/-! ### ServerCheckProcessor -/

/-- `ServerCheckProcessor._create_error_response`. -/
def check_error_response (newId pid : String) (now : Int) (orig : JObj)
    (emsg finalStatus : String) : JObj :=
  [("id", JVal.s newId),
   ("original_request_id", getD orig "id" JVal.null),
   ("action", JVal.s "demise_complete"),
   ("status", JVal.s finalStatus),
   ("processor", JVal.s "ServerCheckProcessor"),
   ("processor_id", JVal.s pid),
   ("timestamp", JVal.s (isoStr now)),
   ("data", rawData orig),
   ("error", JVal.s emsg),
   ("message", JVal.s ("Pipeline terminated: " ++ emsg)),
   ("pipeline_step", JVal.i 1),
   ("pipeline_complete", JVal.b true)]

/-- `ServerCheckProcessor.process_message`, with the portal oracle
abstracted as `portal` (the deployed oracle is
`check_server_in_portal`), `uuid.uuid4()` as `newId`, the processor id
as `pid`, `datetime.now()` as `now`. -/
def check_process (portal : String → Bool) (newId pid : String) (now : Int)
    (m : JObj) : JObj :=
  match dataObj m with
  | none => check_error_response newId pid now m
      "Server check failed: data payload is not a mapping" "error"
  | some d =>
    match getField d "server_id" with
    | none => check_error_response newId pid now m "Server ID is required" "error"
    | some v =>
      if !truthy v then
        check_error_response newId pid now m "Server ID is required" "error"
      else if portal (pyStr v) then
        [("id", JVal.s newId),
         ("original_request_id", getD m "id" JVal.null),
         ("action", JVal.s "poweroff_server"),
         ("status", JVal.s "pending"),
         ("processor", JVal.s "ServerCheckProcessor"),
         ("processor_id", JVal.s pid),
         ("timestamp", JVal.s (isoStr now)),
         ("data", JVal.o
           [("server_id", v),
            ("server_details", JVal.o
              [("hostname", JVal.s ("server-" ++ pyStr v)),
               ("ip_address", JVal.s ("192.168.1." ++ pyStr v)),
               ("status", JVal.s "active"),
               ("location", JVal.s "datacenter-1")]),
            ("check_result", JVal.s "server_found"),
            ("original_request", rawData m)]),
         ("message", JVal.s ("Server " ++ pyStr v ++
            " found in portal. Ready for power off.")),
         ("pipeline_step", JVal.i 1),
         ("next_step", JVal.s "poweroff_server")]
      else
        check_error_response newId pid now m
          ("Server " ++ pyStr v ++ " not found in portal") "failed"

/-! ### ServerPowerOffProcessor -/

/-- `ServerPowerOffProcessor._execute_server_poweroff`; the
`random.random() > 0.1` draw is the parameter `randOk`. -/
def execute_server_poweroff (randOk : Bool) : JObj :=
  if randOk then
    [("success", JVal.b true),
     ("power_status", JVal.s "off"),
     ("poweroff_method", JVal.s "IPMI"),
     ("execution_time", JVal.s "4.5s"),
     ("verification", JVal.s "confirmed_off")]
  else
    [("success", JVal.b false),
     ("error", JVal.s "IPMI connection timeout"),
     ("power_status", JVal.s "unknown"),
     ("attempted_method", JVal.s "IPMI")]

/-- `ServerPowerOffProcessor._create_error_response`. -/
def poweroff_error_response (newId pid : String) (now : Int) (orig : JObj)
    (emsg finalStatus : String) : JObj :=
  [("id", JVal.s newId),
   ("original_request_id", origReqId orig),
   ("action", JVal.s "demise_complete"),
   ("status", JVal.s finalStatus),
   ("processor", JVal.s "ServerPowerOffProcessor"),
   ("processor_id", JVal.s pid),
   ("timestamp", JVal.s (isoStr now)),
   ("data", rawData orig),
   ("error", JVal.s emsg),
   ("message", JVal.s ("Pipeline terminated: " ++ emsg)),
   ("pipeline_step", JVal.i 2),
   ("pipeline_complete", JVal.b true)]

/-- `ServerPowerOffProcessor.process_message`; `randOk` is the simulated
power-off success draw. -/
def poweroff_process (randOk : Bool) (newId pid : String) (now : Int)
    (m : JObj) : JObj :=
  match dataObj m with
  | none => poweroff_error_response newId pid now m
      "Server power off failed: data payload is not a mapping" "error"
  | some d =>
    match getField d "server_id" with
    | none => poweroff_error_response newId pid now m "Server ID is required" "error"
    | some v =>
      if !truthy v then
        poweroff_error_response newId pid now m "Server ID is required" "error"
      else
        let pr := execute_server_poweroff randOk
        if truthyOpt (getField pr "success") then
          [("id", JVal.s newId),
           ("original_request_id", origReqId m),
           ("action", JVal.s "demise_server"),
           ("status", JVal.s "pending"),
           ("processor", JVal.s "ServerPowerOffProcessor"),
           ("processor_id", JVal.s pid),
           ("timestamp", JVal.s (isoStr now)),
           ("data", JVal.o
             [("server_id", v),
              ("server_details", getD d "server_details" (JVal.o [])),
              ("poweroff_result", JVal.o pr),
              ("poweroff_timestamp", JVal.s (isoStr now)),
              ("original_request", getD d "original_request" (JVal.o []))]),
           ("message", JVal.s ("Server " ++ pyStr v ++
              " powered off successfully. Ready for demise request.")),
           ("pipeline_step", JVal.i 2),
           ("next_step", JVal.s "demise_server")]
        else
          poweroff_error_response newId pid now m
            ("Failed to power off server " ++ pyStr v ++ ": " ++
              pyStr (getD pr "error" JVal.null)) "failed"

/-! ### ServerDemiseProcessor -/

/-- `ServerDemiseProcessor._execute_server_demise`; the
`random.random() > 0.05` draw is `randOk`, `int(time.time())` is `now`. -/
def execute_server_demise (randOk : Bool) (now : Int) (sid : String) : JObj :=
  if randOk then
    [("success", JVal.b true),
     ("demise_ticket_id", JVal.s ("DM-" ++ toString now ++ "-" ++ sid)),
     ("status", JVal.s "decommissioned"),
     ("steps_completed", JVal.arr
       [JVal.s "removed_from_monitoring", JVal.s "inventory_updated",
        JVal.s "dns_dhcp_removed", JVal.s "asset_management_updated",
        JVal.s "load_balancer_updated", JVal.s "config_management_updated",
        JVal.s "decommission_ticket_created"]),
     ("execution_time", JVal.s "3.1s"),
     ("decommission_date", JVal.s (isoStr now))]
  else
    [("success", JVal.b false),
     ("error", JVal.s "Asset management system unavailable"),
     ("status", JVal.s "partial_demise"),
     ("steps_completed", JVal.arr
       [JVal.s "removed_from_monitoring", JVal.s "inventory_updated"])]

/-- `ServerDemiseProcessor._calculate_processing_time`: difference of the
integer-seconds datetimes, rendered with two decimal places; "unknown"
when the original message has no parsable `timestamp`. -/
def calc_processing_time (now : Int) (m : JObj) : String :=
  match getField m "timestamp" with
  | some (JVal.s t) =>
      match pythonInt t with
      | some t0 => toString (now - t0) ++ ".00s"
      | none => "unknown"
  | _ => "unknown"

/-- `ServerDemiseProcessor._create_error_response`. -/
def demise_error_response (newId pid : String) (now : Int) (orig : JObj)
    (emsg finalStatus : String) : JObj :=
  [("id", JVal.s newId),
   ("original_request_id", origReqId orig),
   ("action", JVal.s "demise_complete"),
   ("status", JVal.s finalStatus),
   ("processor", JVal.s "ServerDemiseProcessor"),
   ("processor_id", JVal.s pid),
   ("timestamp", JVal.s (isoStr now)),
   ("data", rawData orig),
   ("error", JVal.s emsg),
   ("message", JVal.s ("Pipeline terminated: " ++ emsg)),
   ("pipeline_step", JVal.i 3),
   ("pipeline_complete", JVal.b true)]

/-- `ServerDemiseProcessor.process_message`. -/
def demise_process (randOk : Bool) (newId pid : String) (now : Int)
    (m : JObj) : JObj :=
  match dataObj m with
  | none => demise_error_response newId pid now m
      "Server demise failed: data payload is not a mapping" "error"
  | some d =>
    match getField d "server_id" with
    | none => demise_error_response newId pid now m "Server ID is required" "error"
    | some v =>
      if !truthy v then
        demise_error_response newId pid now m "Server ID is required" "error"
      else
        let dr := execute_server_demise randOk now (pyStr v)
        if truthyOpt (getField dr "success") then
          [("id", JVal.s newId),
           ("original_request_id", origReqId m),
           ("action", JVal.s "demise_complete"),
           ("status", JVal.s "completed"),
           ("processor", JVal.s "ServerDemiseProcessor"),
           ("processor_id", JVal.s pid),
           ("timestamp", JVal.s (isoStr now)),
           ("data", JVal.o
             [("server_id", v),
              ("server_details", getD d "server_details" (JVal.o [])),
              ("poweroff_result", getD d "poweroff_result" (JVal.o [])),
              ("demise_result", JVal.o dr),
              ("completion_timestamp", JVal.s (isoStr now)),
              ("pipeline_summary", JVal.o
                [("step_1", JVal.s "Server found in portal"),
                 ("step_2", JVal.s "Server powered off successfully"),
                 ("step_3", JVal.s "Server demise request completed")]),
              ("original_request", getD d "original_request" (JVal.o []))]),
           ("message", JVal.s ("Server " ++ pyStr v ++
              " demise process completed successfully.")),
           ("pipeline_step", JVal.i 3),
           ("pipeline_complete", JVal.b true),
           ("total_processing_time", JVal.s (calc_processing_time now m))]
        else
          demise_error_response newId pid now m
            ("Failed to demise server " ++ pyStr v ++ ": " ++
              pyStr (getD dr "error" JVal.null)) "failed"

/-! ### ServerCoolingPeriodProcessor

The cooling monitor holds per-server state in `self.cooling_sessions`,
a dict keyed by the raw `server_id` value.  Python `==` on those keys is
modelled by the structural equality `JVal.beq`. -/

mutual

/-- Python `==` on message values (structural equality). -/
def JVal.beq : JVal → JVal → Bool
  | JVal.s a, JVal.s b => a == b
  | JVal.i a, JVal.i b => a == b
  | JVal.q a, JVal.q b => a == b
  | JVal.b a, JVal.b b => a == b
  | JVal.null, JVal.null => true
  | JVal.o a, JVal.o b => beqFieldsJ a b
  | JVal.arr a, JVal.arr b => beqItemsJ a b
  | _, _ => false

/-- Pointwise equality of dict entries. -/
def beqFieldsJ : List (String × JVal) → List (String × JVal) → Bool
  | [], [] => true
  | (k₁, v₁) :: t₁, (k₂, v₂) :: t₂ =>
      k₁ == k₂ && JVal.beq v₁ v₂ && beqFieldsJ t₁ t₂
  | _, _ => false

/-- Pointwise equality of list items. -/
def beqItemsJ : List JVal → List JVal → Bool
  | [], [] => true
  | a :: t₁, b :: t₂ => JVal.beq a b && beqItemsJ t₁ t₂
  | _, _ => false

end

/-- One in-memory cooling session (`cooling_info` in the source):
`sidKey` is the raw `server_id` value the session is stored under. -/
structure CoolingSession where
  sidKey : JVal
  server_details : JVal
  poweroff_timestamp : JVal
  cooling_start : Int
  cooling_end : Int
  original_message : JObj
  check_count : Nat
  last_check : Option Int
  status : String

/-- The `cooling_sessions` map: association list keyed by `server_id`. -/
abbrev SessionMap := List (JVal × CoolingSession)

/-- `server_id in self.cooling_sessions`. -/
def mapHas (M : SessionMap) (k : JVal) : Bool :=
  M.any (fun p => JVal.beq p.1 k)

/-- `self.cooling_sessions[server_id]` as an optional lookup. -/
def lookupSession (M : SessionMap) (k : JVal) : Option CoolingSession :=
  (M.find? (fun p => JVal.beq p.1 k)).map (fun p => p.2)

/-- `if server_id in self.cooling_sessions: del ...` — removal of a key,
a no-op when the key is absent. -/
def eraseSession (M : SessionMap) (k : JVal) : SessionMap :=
  M.filter (fun p => !JVal.beq p.1 k)

/-- The cooling-period configuration (`self.cooling_period_hours`). -/
def cooling_period_hours : Int := 48

/-- The check cadence (`self.check_interval_hours`). -/
def check_interval_hours : Int := 2

/-- `ServerCoolingPeriodProcessor._create_error_response`
(terminal, `pipeline_complete: True`). -/
def cooling_error_response (newId pid : String) (now : Int) (orig : JObj)
    (emsg finalStatus : String) : JObj :=
  [("id", JVal.s newId),
   ("original_request_id", origReqId orig),
   ("action", JVal.s "cooling_error"),
   ("status", JVal.s finalStatus),
   ("processor", JVal.s "ServerCoolingPeriodProcessor"),
   ("processor_id", JVal.s pid),
   ("timestamp", JVal.s (isoStr now)),
   ("data", rawData orig),
   ("error", JVal.s emsg),
   ("message", JVal.s ("Cooling period failed: " ++ emsg)),
   ("pipeline_step", JVal.s "2.5"),
   ("pipeline_complete", JVal.b true)]

/-- `ServerCoolingPeriodProcessor._create_status_response`
(informational, no `pipeline_complete` marker). -/
def cooling_status_response (newId pid : String) (now : Int) (orig : JObj)
    (statusMsg : String) : JObj :=
  [("id", JVal.s newId),
   ("original_request_id", origReqId orig),
   ("action", JVal.s "cooling_status"),
   ("status", JVal.s "info"),
   ("processor", JVal.s "ServerCoolingPeriodProcessor"),
   ("processor_id", JVal.s pid),
   ("timestamp", JVal.s (isoStr now)),
   ("data", rawData orig),
   ("message", JVal.s statusMsg),
   ("pipeline_step", JVal.s "2.5")]

/-- Result of `ServerCoolingPeriodProcessor.process_message`: the updated
session map, the returned message, and whether a new monitoring task was
started (`threading.Thread(...).start()`). -/
structure CoolingAccept where
  sessions : SessionMap
  response : JObj
  taskStarted : Bool

/-- `ServerCoolingPeriodProcessor.process_message`. -/
def cooling_process (newId pid : String) (now : Int) (M : SessionMap)
    (m : JObj) : CoolingAccept :=
  match dataObj m with
  | none => ⟨M, cooling_error_response newId pid now m
      "Cooling period start failed: data payload is not a mapping" "error",
      false⟩
  | some d =>
    match getField d "server_id" with
    | none => ⟨M, cooling_error_response newId pid now m
        "Server ID is required for cooling period" "error", false⟩
    | some v =>
      if !truthy v then
        ⟨M, cooling_error_response newId pid now m
          "Server ID is required for cooling period" "error", false⟩
      else if mapHas M v then
        ⟨M, cooling_status_response newId pid now m
          "Server already in cooling period", false⟩
      else
        let info : CoolingSession :=
          { sidKey := v
            server_details := getD d "server_details" (JVal.o [])
            poweroff_timestamp := getD d "poweroff_timestamp"
              (JVal.s (isoStr now))
            cooling_start := now
            cooling_end := now + cooling_period_hours * 3600
            original_message := m
            check_count := 0
            last_check := none
            status := "monitoring" }
        ⟨M ++ [(v, info)],
         [("id", JVal.s newId),
          ("original_request_id", origReqId m),
          ("action", JVal.s "cooling_period_started"),
          ("status", JVal.s "monitoring"),
          ("processor", JVal.s "ServerCoolingPeriodProcessor"),
          ("processor_id", JVal.s pid),
          ("timestamp", JVal.s (isoStr now)),
          ("data", JVal.o
            [("server_id", v),
             ("server_details", info.server_details),
             ("cooling_start", JVal.s (isoStr info.cooling_start)),
             ("cooling_end", JVal.s (isoStr info.cooling_end)),
             ("cooling_period_hours", JVal.i cooling_period_hours),
             ("check_interval_hours", JVal.i check_interval_hours),
             ("poweroff_timestamp", info.poweroff_timestamp)]),
          ("message", JVal.s ("Server " ++ pyStr v ++
             " entered 48-hour cooling period. Monitoring every 2 hours.")),
          ("pipeline_step", JVal.s "2.5"),
          ("next_step", JVal.s "cooling_monitor")],
         true⟩

/-! ### The cooling monitor's polling machinery -/

/-- Outcome of one oracle query inside
`_check_server_power_status`: either the simulated IPMI result (the
`random` draws are the parameters) or an exception raised during the
query. -/
inductive OracleResult where
  | ok (isOn : Bool) (bootMinutes : Int) (reason : String)
  | exn (emsg : String)

/-- The dict `_check_server_power_status` answers from its `except`
clause: a query failure is reported as assume-off. -/
def powerExnDict (now : Int) (e : String) : JObj :=
  [("is_powered_on", JVal.b false),
   ("power_state", JVal.s "unknown"),
   ("check_method", JVal.s "IPMI"),
   ("error", JVal.s e),
   ("check_timestamp", JVal.s (isoStr now))]

/-- `ServerCoolingPeriodProcessor._check_server_power_status`. -/
def check_server_power_status (now : Int) (r : OracleResult)
    (details : JVal) : JObj :=
  match r with
  | OracleResult.exn e => powerExnDict now e
  | OracleResult.ok isOn bootMin reason =>
    match details with
    | JVal.o df =>
        [("is_powered_on", JVal.b isOn),
         ("power_state", JVal.s (if isOn then "on" else "off")),
         ("check_method", JVal.s "IPMI"),
         ("check_timestamp", JVal.s (isoStr now)),
         ("response_time_ms", JVal.i 1500),
         ("server_ip", getD df "ip_address" (JVal.s "unknown"))] ++
        (if isOn then
          [("boot_time", JVal.s (isoStr (now - bootMin * 60))),
           ("power_on_reason", JVal.s reason)]
         else [])
    | _ => powerExnDict now "AttributeError: get"

/-- One observable effect of the monitor: producing a message to the
topic, or deleting a key from the session map. -/
inductive CEvent where
  | send (msg : JObj)
  | removeKey (k : JVal)

/-- The messages actually produced in a trace. -/
def sentMsgs (tr : List CEvent) : List JObj :=
  tr.filterMap (fun e => match e with
    | CEvent.send m => some m
    | CEvent.removeKey _ => none)

/-- The key removals in a trace. -/
def removals (tr : List CEvent) : List JVal :=
  tr.filterMap (fun e => match e with
    | CEvent.send _ => none
    | CEvent.removeKey k => some k)

/-- `original_message.get('data', {}).get('original_request', {})` as
read by `_handle_cooling_complete`.  Every session stored by
`cooling_process` has a dict `data` payload (its `server_id` was read
from it), so the non-dict branch is unreachable for stored sessions. -/
def origRequestOf (m : JObj) : JVal :=
  match dataObj m with
  | some od => getD od "original_request" (JVal.o [])
  | none => JVal.o []

/-- The terminal violation message `_handle_cooling_violation` builds.
`s` is the session as mutated by `_perform_power_check` (its
`check_count` already incremented). -/
def cooling_violation_msg (newId pid : String) (now : Int)
    (s : CoolingSession) (p : JObj) : JObj :=
    [("id", JVal.s newId),
     ("original_request_id", origReqId s.original_message),
     ("action", JVal.s "cooling_violation_error"),
     ("status", JVal.s "violation_error"),
     ("processor", JVal.s "ServerCoolingPeriodProcessor"),
     ("processor_id", JVal.s pid),
     ("timestamp", JVal.s (isoStr now)),
     ("data", JVal.o
       [("server_id", s.sidKey),
        ("server_details", s.server_details),
        ("violation_details", JVal.o
          [("power_status", JVal.o p),
           ("violation_time", JVal.s (isoStr now)),
           ("cooling_elapsed_hours",
             JVal.q (((now - s.cooling_start : Int) : Rat) / 3600)),
           ("remaining_hours",
             JVal.q (((s.cooling_end - now : Int) : Rat) / 3600)),
           ("check_number", JVal.i (s.check_count : Int))]),
        ("cooling_period_info", JVal.o
          [("cooling_start", JVal.s (isoStr s.cooling_start)),
           ("cooling_end", JVal.s (isoStr s.cooling_end)),
           ("total_checks_performed", JVal.i (s.check_count : Int))])]),
     ("error", JVal.s ("Server " ++ pyStr s.sidKey ++
        " powered on during mandatory cooling period")),
     ("message", JVal.s ("CRITICAL: Server " ++ pyStr s.sidKey ++
        " violated cooling period by powering on. Demise process terminated.")),
     ("pipeline_step", JVal.s "2.5"),
     ("pipeline_complete", JVal.b true),
     ("violation", JVal.b true)]

/-- `ServerCoolingPeriodProcessor._handle_cooling_violation`: sends the
terminal violation message, then removes the session — in that order. -/
def handle_cooling_violation (newId pid : String) (now : Int)
    (s : CoolingSession) (p : JObj) (M : SessionMap) :
    List CEvent × SessionMap :=
  (CEvent.send (cooling_violation_msg newId pid now s p) ::
     (if mapHas M s.sidKey then [CEvent.removeKey s.sidKey] else []),
   eraseSession M s.sidKey)

/-- The `demise_server`/`pending` successor message
`_handle_cooling_complete` builds, carrying the cooling summary. -/
def cooling_complete_msg (newId pid : String) (now : Int)
    (s : CoolingSession) : JObj :=
    [("id", JVal.s newId),
     ("original_request_id", origReqId s.original_message),
     ("action", JVal.s "demise_server"),
     ("status", JVal.s "pending"),
     ("processor", JVal.s "ServerCoolingPeriodProcessor"),
     ("processor_id", JVal.s pid),
     ("timestamp", JVal.s (isoStr now)),
     ("data", JVal.o
       [("server_id", s.sidKey),
        ("server_details", s.server_details),
        ("cooling_completion", JVal.o
          [("cooling_start", JVal.s (isoStr s.cooling_start)),
           ("cooling_end", JVal.s (isoStr s.cooling_end)),
           ("actual_completion", JVal.s (isoStr now)),
           ("total_checks_performed", JVal.i (s.check_count : Int)),
           ("cooling_duration_hours", JVal.i cooling_period_hours)]),
        ("poweroff_timestamp", s.poweroff_timestamp),
        ("original_request", origRequestOf s.original_message)]),
     ("message", JVal.s ("Server " ++ pyStr s.sidKey ++
        " completed 48-hour cooling period successfully. Proceeding to demise.")),
     ("pipeline_step", JVal.s "2.5"),
     ("next_step", JVal.s "demise_server")]

/-- `ServerCoolingPeriodProcessor._handle_cooling_complete`: sends the
completion successor, then removes the session. -/
def handle_cooling_complete (newId pid : String) (now : Int)
    (s : CoolingSession) (M : SessionMap) : List CEvent × SessionMap :=
  (CEvent.send (cooling_complete_msg newId pid now s) ::
     (if mapHas M s.sidKey then [CEvent.removeKey s.sidKey] else []),
   eraseSession M s.sidKey)

/-- The terminal `cooling_error` message `_handle_cooling_error` builds
for an unhandled monitoring exception. -/
def cooling_monitor_error_msg (newId pid : String) (now : Int)
    (s : CoolingSession) (emsg : String) : JObj :=
    [("id", JVal.s newId),
     ("original_request_id", origReqId s.original_message),
     ("action", JVal.s "cooling_error"),
     ("status", JVal.s "error"),
     ("processor", JVal.s "ServerCoolingPeriodProcessor"),
     ("processor_id", JVal.s pid),
     ("timestamp", JVal.s (isoStr now)),
     ("data", JVal.o
       [("server_id", s.sidKey),
        ("server_details", s.server_details),
        ("error_details", JVal.o
          [("error_message", JVal.s emsg),
           ("error_time", JVal.s (isoStr now)),
           ("checks_completed", JVal.i (s.check_count : Int)),
           ("last_successful_check",
             match s.last_check with
             | some t => JVal.s (isoStr t)
             | none => JVal.null)])]),
     ("error", JVal.s emsg),
     ("message", JVal.s ("Cooling period monitoring failed for server " ++
        pyStr s.sidKey ++ ": " ++ emsg)),
     ("pipeline_step", JVal.s "2.5"),
     ("pipeline_complete", JVal.b true)]

/-- `ServerCoolingPeriodProcessor._handle_cooling_error`: sends the
terminal error message, then removes the session. -/
def handle_cooling_error (newId pid : String) (now : Int)
    (s : CoolingSession) (emsg : String) (M : SessionMap) :
    List CEvent × SessionMap :=
  (CEvent.send (cooling_monitor_error_msg newId pid now s emsg) ::
     (if mapHas M s.sidKey then [CEvent.removeKey s.sidKey] else []),
   eraseSession M s.sidKey)

/-- `round(x, 1)`. -/
def round1 (x : Rat) : Rat := ((round (x * 10) : Int) : Rat) / 10

/-- `ServerCoolingPeriodProcessor._send_status_update`: the
`cooling_status_update` message is constructed, but the
`self._send_response(status_response)` line is commented out in the
source — so the returned trace is empty. -/
def cooling_status_update_msg (newId pid : String) (now : Int)
    (s : CoolingSession) (p : JObj) : JObj :=
  let remaining : Rat := ((s.cooling_end - now : Int) : Rat) / 3600
  [("id", JVal.s newId),
     ("original_request_id", origReqId s.original_message),
     ("action", JVal.s "cooling_status_update"),
     ("status", JVal.s "monitoring"),
     ("processor", JVal.s "ServerCoolingPeriodProcessor"),
     ("processor_id", JVal.s pid),
     ("timestamp", JVal.s (isoStr now)),
     ("data", JVal.o
       [("server_id", s.sidKey),
        ("cooling_status", JVal.o
          [("remaining_hours", JVal.q (round1 remaining)),
           ("check_number", JVal.i (s.check_count : Int)),
           ("power_status", JVal.o p),
           ("next_check_in_hours", JVal.i check_interval_hours)])]),
     ("message", JVal.s ("Server " ++ pyStr s.sidKey ++ " cooling check")),
     ("pipeline_step", JVal.s "2.5")]

/-- `ServerCoolingPeriodProcessor._send_status_update`: the message is
constructed, but the `self._send_response(status_response)` call is
commented out in the source — the produced trace is empty. -/
def send_status_update (newId pid : String) (now : Int)
    (s : CoolingSession) (p : JObj) : JObj × List CEvent :=
  (cooling_status_update_msg newId pid now s p, [])

/-- `ServerCoolingPeriodProcessor._perform_power_check`: increments
`check_count` and sets `last_check` first, then queries the oracle; a
powered-on answer is escalated through `_handle_cooling_violation`, a
powered-off answer only logs (`_send_status_update` sends nothing). -/
def perform_power_check (newId pid : String) (now : Int)
    (r : OracleResult) (s : CoolingSession) (M : SessionMap) :
    CoolingSession × SessionMap × List CEvent :=
  let s' : CoolingSession :=
    { s with check_count := s.check_count + 1, last_check := some now }
  let p := check_server_power_status now r s.server_details
  if truthyOpt (getField p "is_powered_on") then
    let (tr, M') := handle_cooling_violation newId pid now s' p M
    (s', M', tr)
  else
    let (_, tr) := send_status_update newId pid now s' p
    (s', M, tr)

/-- Result of one iteration of the monitoring loop in
`_start_cooling_monitor`: `finished` is whether the loop hit its
`break` (the completion branch). -/
structure MonitorResult where
  finished : Bool
  session : CoolingSession
  sessions : SessionMap
  trace : List CEvent

/-- One iteration of the `while True` loop of
`_start_cooling_monitor.monitor_cooling_period`: completion is checked
against the wall clock first; otherwise a power check runs and the loop
continues. -/
def monitor_step (newId pid : String) (now : Int) (r : OracleResult)
    (s : CoolingSession) (M : SessionMap) : MonitorResult :=
  if s.cooling_end ≤ now then
    let (tr, M') := handle_cooling_complete newId pid now s M
    ⟨true, s, M', tr⟩
  else
    let (s', M', tr) := perform_power_check newId pid now r s M
    ⟨false, s', M', tr⟩

/-! ### Observation helpers and concrete test inputs -/

/-- The value under key `k` of a message's `data` dict. -/
def payloadField (m : JObj) (k : String) : Option JVal :=
  (dataObj m).bind (fun d => getField d k)

/-- A field of a nested dict value. -/
def subField (v : Option JVal) (k : String) : Option JVal :=
  match v with
  | some (JVal.o d) => getField d k
  | _ => none

/-- A well-formed `check_server`/`pending` request for server id "150". -/
def sampleCheckMsg (sid : String) : JObj :=
  [("id", JVal.s "req-1"),
   ("action", JVal.s "check_server"),
   ("status", JVal.s "pending"),
   ("timestamp", JVal.s "0"),
   ("data", JVal.o [("server_id", JVal.s sid)])]

/-- A `poweroff_server`/`pending` message as the Check stage emits it:
its payload carries the `check_result` field the Check stage added. -/
def samplePoweroffMsg : JObj :=
  [("id", JVal.s "msg-2"),
   ("original_request_id", JVal.s "req-1"),
   ("action", JVal.s "poweroff_server"),
   ("status", JVal.s "pending"),
   ("data", JVal.o
     [("server_id", JVal.s "150"),
      ("server_details", JVal.o [("hostname", JVal.s "server-150")]),
      ("check_result", JVal.s "server_found"),
      ("original_request", JVal.o [("server_id", JVal.s "150")])])]

/-- A `start_cooling_period`/`pending` message. -/
def sampleCoolingMsg : JObj :=
  [("id", JVal.s "msg-3"),
   ("original_request_id", JVal.s "req-1"),
   ("action", JVal.s "start_cooling_period"),
   ("status", JVal.s "pending"),
   ("data", JVal.o
     [("server_id", JVal.s "150"),
      ("server_details", JVal.o [("ip_address", JVal.s "192.168.1.150")]),
      ("poweroff_timestamp", JVal.s "100")])]

/-- A cooling session as `cooling_process` stores it for
`sampleCoolingMsg` at time 1000. -/
def sampleSession : CoolingSession :=
  { sidKey := JVal.s "150"
    server_details := JVal.o [("ip_address", JVal.s "192.168.1.150")]
    poweroff_timestamp := JVal.s "100"
    cooling_start := 1000
    cooling_end := 1000 + cooling_period_hours * 3600
    original_message := sampleCoolingMsg
    check_count := 0
    last_check := none
    status := "monitoring" }

/-! ## Theorems -/

theorem isStrField_action {m : JObj} {lit : String}
    (h : isStrField m "action" lit = true) :
    getField m "action" = some (JVal.s lit) := by
  unfold isStrField at h
  cases hA : getField m "action" with
  | none => rw [hA] at h; simp at h
  | some v =>
    cases v with
    | s u =>
      rw [hA] at h
      simp at h
      rw [h]
    | i v => rw [hA] at h; simp at h
    | q v => rw [hA] at h; simp at h
    | b v => rw [hA] at h; simp at h
    | null => rw [hA] at h; simp at h
    | o fields => rw [hA] at h; simp at h
    | arr items => rw [hA] at h; simp at h

/-- C1: for every message, at most one of the four stage routing
predicates accepts it — the four trigger actions are pairwise distinct
strings. -/
theorem routing_uniqueness (m : JObj) :
    atMostOne (check_should m) (poweroff_should m) (cooling_should m)
      (demise_should m) := by
  unfold atMostOne
  by_cases h1 : check_should m = true
  · have a1 := isStrField_action (Bool.and_elim_left h1)
    by_cases h2 : poweroff_should m = true
    · have a2 := isStrField_action (Bool.and_elim_left h2)
      rw [a1] at a2
      exact absurd a2 (by simp)
    · by_cases h3 : cooling_should m = true
      · have a3 := isStrField_action (Bool.and_elim_left h3)
        rw [a1] at a3
        exact absurd a3 (by simp)
      · by_cases h4 : demise_should m = true
        · have a4 := isStrField_action (Bool.and_elim_left h4)
          rw [a1] at a4
          exact absurd a4 (by simp)
        · simp [h1, Bool.eq_false_iff.mpr h2, Bool.eq_false_iff.mpr h3,
            Bool.eq_false_iff.mpr h4]
  · by_cases h2 : poweroff_should m = true
    · have a2 := isStrField_action (Bool.and_elim_left h2)
      by_cases h3 : cooling_should m = true
      · have a3 := isStrField_action (Bool.and_elim_left h3)
        rw [a2] at a3
        exact absurd a3 (by simp)
      · by_cases h4 : demise_should m = true
        · have a4 := isStrField_action (Bool.and_elim_left h4)
          rw [a2] at a4
          exact absurd a4 (by simp)
        · simp [Bool.eq_false_iff.mpr h1, h2, Bool.eq_false_iff.mpr h3,
            Bool.eq_false_iff.mpr h4]
    · by_cases h3 : cooling_should m = true
      · have a3 := isStrField_action (Bool.and_elim_left h3)
        by_cases h4 : demise_should m = true
        · have a4 := isStrField_action (Bool.and_elim_left h4)
          rw [a3] at a4
          exact absurd a4 (by simp)
        · simp [Bool.eq_false_iff.mpr h1, Bool.eq_false_iff.mpr h2, h3,
            Bool.eq_false_iff.mpr h4]
      · by_cases h4 : demise_should m = true
        · simp [Bool.eq_false_iff.mpr h1, Bool.eq_false_iff.mpr h2,
            Bool.eq_false_iff.mpr h3, h4]
        · simp [Bool.eq_false_iff.mpr h1, Bool.eq_false_iff.mpr h2,
            Bool.eq_false_iff.mpr h3, Bool.eq_false_iff.mpr h4]

/-- C9: the Check stage's portal-existence oracle accepts exactly the ids
that parse (as Python `int`) to some n with 100 ≤ n ≤ 999, or fail to
parse and start, upper-cased, with SRV/HOST/VM/PROD/TEST; concretely,
id "150" proceeds to power-off while "42" and "1500" end the pipeline
with the terminal failed message. -/
theorem portal_existence_rule :
    (∀ sid : String, check_server_in_portal sid = true ↔
      ((∃ n : Int, pythonInt sid = some n ∧ 100 ≤ n ∧ n ≤ 999) ∨
       (pythonInt sid = none ∧
        validStarts.any (fun v => List.isPrefixOf v (asciiUpper sid)) = true))) ∧
    isStrField (check_process check_server_in_portal "u" "p" 0
      (sampleCheckMsg "150")) "action" "poweroff_server" = true ∧
    (isStrField (check_process check_server_in_portal "u" "p" 0
       (sampleCheckMsg "42")) "action" "demise_complete" = true ∧
     isStrField (check_process check_server_in_portal "u" "p" 0
       (sampleCheckMsg "42")) "status" "failed" = true ∧
     getField (check_process check_server_in_portal "u" "p" 0
       (sampleCheckMsg "42")) "pipeline_complete" = some (JVal.b true)) ∧
    (isStrField (check_process check_server_in_portal "u" "p" 0
       (sampleCheckMsg "1500")) "action" "demise_complete" = true ∧
     isStrField (check_process check_server_in_portal "u" "p" 0
       (sampleCheckMsg "1500")) "status" "failed" = true) := by
  refine ⟨fun sid => ?_, by decide, ⟨by decide, by decide, rfl⟩,
    ⟨by decide, by decide⟩⟩
  unfold check_server_in_portal
  cases h : pythonInt sid with
  | none => simp [h]
  | some n => simp [h]

/-- C3 (the code evaluated at the failing input): on a successful
power-off the PowerOff stage's successor message carries action
`demise_server` — not `start_cooling_period` — so the cooling stage's
routing predicate rejects it and the demise stage's accepts it; the
successful power-off therefore bypasses the cooling-period monitor,
contradicting the pipeline order the orchestrator documents. -/
theorem poweroff_successor_skips_cooling :
    isStrField (poweroff_process true "u" "p" 0 samplePoweroffMsg)
      "action" "demise_server" = true ∧
    isStrField (poweroff_process true "u" "p" 0 samplePoweroffMsg)
      "action" "start_cooling_period" = false ∧
    cooling_should (poweroff_process true "u" "p" 0 samplePoweroffMsg) = false ∧
    demise_should (poweroff_process true "u" "p" 0 samplePoweroffMsg) = true :=
  ⟨by decide, by decide, by decide, by decide⟩

/-- C2 (counterexample): the `check_result` field present in the payload
entering the PowerOff stage is absent from the payload of the success
message the stage emits — the stage rebuilds the payload from a fixed
field set and drops the rest. -/
theorem poweroff_payload_not_monotone :
    payloadField samplePoweroffMsg "check_result" = some (JVal.s "server_found") ∧
    payloadField (poweroff_process true "u" "p" 0 samplePoweroffMsg)
      "check_result" = none :=
  ⟨rfl, rfl⟩

theorem check_process_found (portal : String → Bool) (newId pid : String)
    (now : Int) (m : JObj) (d : JObj) (v : JVal) (hd : dataObj m = some d)
    (hv : getField d "server_id" = some v) (ht : truthy v = true)
    (hp : portal (pyStr v) = true) :
    check_process portal newId pid now m =
      [("id", JVal.s newId),
       ("original_request_id", getD m "id" JVal.null),
       ("action", JVal.s "poweroff_server"),
       ("status", JVal.s "pending"),
       ("processor", JVal.s "ServerCheckProcessor"),
       ("processor_id", JVal.s pid),
       ("timestamp", JVal.s (isoStr now)),
       ("data", JVal.o
         [("server_id", v),
          ("server_details", JVal.o
            [("hostname", JVal.s ("server-" ++ pyStr v)),
             ("ip_address", JVal.s ("192.168.1." ++ pyStr v)),
             ("status", JVal.s "active"),
             ("location", JVal.s "datacenter-1")]),
          ("check_result", JVal.s "server_found"),
          ("original_request", rawData m)]),
       ("message", JVal.s ("Server " ++ pyStr v ++
          " found in portal. Ready for power off.")),
       ("pipeline_step", JVal.i 1),
       ("next_step", JVal.s "poweroff_server")] := by
  unfold check_process
  rw [hd]
  dsimp only
  rw [hv]
  dsimp only
  rw [ht, hp]
  simp

theorem poweroff_process_success (newId pid : String) (now : Int)
    (m : JObj) (d : JObj) (v : JVal) (hd : dataObj m = some d)
    (hv : getField d "server_id" = some v) (ht : truthy v = true) :
    poweroff_process true newId pid now m =
      [("id", JVal.s newId),
       ("original_request_id", origReqId m),
       ("action", JVal.s "demise_server"),
       ("status", JVal.s "pending"),
       ("processor", JVal.s "ServerPowerOffProcessor"),
       ("processor_id", JVal.s pid),
       ("timestamp", JVal.s (isoStr now)),
       ("data", JVal.o
         [("server_id", v),
          ("server_details", getD d "server_details" (JVal.o [])),
          ("poweroff_result", JVal.o (execute_server_poweroff true)),
          ("poweroff_timestamp", JVal.s (isoStr now)),
          ("original_request", getD d "original_request" (JVal.o []))]),
       ("message", JVal.s ("Server " ++ pyStr v ++
          " powered off successfully. Ready for demise request.")),
       ("pipeline_step", JVal.i 2),
       ("next_step", JVal.s "demise_server")] := by
  unfold poweroff_process
  rw [hd]
  dsimp only
  rw [hv]
  dsimp only
  rw [ht]
  simp [execute_server_poweroff, truthyOpt, truthy, getField]

theorem demise_process_success (newId pid : String) (now : Int)
    (m : JObj) (d : JObj) (v : JVal) (hd : dataObj m = some d)
    (hv : getField d "server_id" = some v) (ht : truthy v = true) :
    demise_process true newId pid now m =
      [("id", JVal.s newId),
       ("original_request_id", origReqId m),
       ("action", JVal.s "demise_complete"),
       ("status", JVal.s "completed"),
       ("processor", JVal.s "ServerDemiseProcessor"),
       ("processor_id", JVal.s pid),
       ("timestamp", JVal.s (isoStr now)),
       ("data", JVal.o
         [("server_id", v),
          ("server_details", getD d "server_details" (JVal.o [])),
          ("poweroff_result", getD d "poweroff_result" (JVal.o [])),
          ("demise_result", JVal.o (execute_server_demise true now (pyStr v))),
          ("completion_timestamp", JVal.s (isoStr now)),
          ("pipeline_summary", JVal.o
            [("step_1", JVal.s "Server found in portal"),
             ("step_2", JVal.s "Server powered off successfully"),
             ("step_3", JVal.s "Server demise request completed")]),
          ("original_request", getD d "original_request" (JVal.o []))]),
       ("message", JVal.s ("Server " ++ pyStr v ++
          " demise process completed successfully.")),
       ("pipeline_step", JVal.i 3),
       ("pipeline_complete", JVal.b true),
       ("total_processing_time", JVal.s (calc_processing_time now m))] := by
  unfold demise_process
  rw [hd]
  dsimp only
  rw [hv]
  dsimp only
  rw [ht]
  simp [execute_server_demise, truthyOpt, truthy, getField]

/-- C2 (amended): each stage's success message carries forward, unmodified,
a fixed set of payload fields — `server_id` for every stage; the entire
incoming payload, nested under the new `original_request` key, for Check;
`server_details` and `original_request` for PowerOff; `server_details`,
`poweroff_result` and `original_request` for Demise — and adds the
stage's own result fields; incoming payload fields outside this set are
not preserved in place. -/
theorem stage_payload_carry (newId pid : String) (now : Int) (m : JObj)
    (d : JObj) (v : JVal) (hd : dataObj m = some d)
    (hv : getField d "server_id" = some v) (ht : truthy v = true) :
    (∀ portal : String → Bool, portal (pyStr v) = true →
      (payloadField (check_process portal newId pid now m) "server_id" = some v ∧
       payloadField (check_process portal newId pid now m) "original_request"
         = some (rawData m) ∧
       payloadField (check_process portal newId pid now m) "check_result"
         = some (JVal.s "server_found"))) ∧
    (payloadField (poweroff_process true newId pid now m) "server_id" = some v ∧
     payloadField (poweroff_process true newId pid now m) "server_details"
       = some (getD d "server_details" (JVal.o [])) ∧
     payloadField (poweroff_process true newId pid now m) "original_request"
       = some (getD d "original_request" (JVal.o [])) ∧
     payloadField (poweroff_process true newId pid now m) "poweroff_result"
       = some (JVal.o (execute_server_poweroff true))) ∧
    (payloadField (demise_process true newId pid now m) "server_id" = some v ∧
     payloadField (demise_process true newId pid now m) "server_details"
       = some (getD d "server_details" (JVal.o [])) ∧
     payloadField (demise_process true newId pid now m) "poweroff_result"
       = some (getD d "poweroff_result" (JVal.o [])) ∧
     payloadField (demise_process true newId pid now m) "original_request"
       = some (getD d "original_request" (JVal.o [])) ∧
     payloadField (demise_process true newId pid now m) "demise_result"
       = some (JVal.o (execute_server_demise true now (pyStr v)))) := by
  refine ⟨fun portal hp => ?_, ?_, ?_⟩
  · rw [check_process_found portal newId pid now m d v hd hv ht hp]
    refine ⟨?_, ?_, ?_⟩ <;> simp [payloadField, dataObj, getField]
  · rw [poweroff_process_success newId pid now m d v hd hv ht]
    refine ⟨?_, ?_, ?_, ?_⟩ <;> simp [payloadField, dataObj, getField]
  · rw [demise_process_success newId pid now m d v hd hv ht]
    refine ⟨?_, ?_, ?_, ?_, ?_⟩ <;> simp [payloadField, dataObj, getField]

/-- Witness for `stage_payload_carry` at the concrete message
`samplePoweroffMsg`. -/
theorem stage_payload_carry_witness :
    dataObj samplePoweroffMsg = some
      [("server_id", JVal.s "150"),
       ("server_details", JVal.o [("hostname", JVal.s "server-150")]),
       ("check_result", JVal.s "server_found"),
       ("original_request", JVal.o [("server_id", JVal.s "150")])] ∧
    truthy (JVal.s "150") = true ∧
    payloadField (check_process (fun _ => true) "u" "p" 0 samplePoweroffMsg)
      "server_id" = some (JVal.s "150") ∧
    payloadField (poweroff_process true "u" "p" 0 samplePoweroffMsg)
      "server_id" = some (JVal.s "150") ∧
    payloadField (demise_process true "u" "p" 0 samplePoweroffMsg)
      "demise_result" = some (JVal.o (execute_server_demise true 0 "150")) :=
  ⟨rfl, rfl,
   ((stage_payload_carry "u" "p" 0 samplePoweroffMsg _ (JVal.s "150")
      rfl rfl rfl).1 (fun _ => true) rfl).1,
   (stage_payload_carry "u" "p" 0 samplePoweroffMsg _ (JVal.s "150")
      rfl rfl rfl).2.1.1,
   (stage_payload_carry "u" "p" 0 samplePoweroffMsg _ (JVal.s "150")
      rfl rfl rfl).2.2.2.2.2.2⟩

theorem lookupSession_erase_self (M : SessionMap) (k : JVal) :
    lookupSession (eraseSession M k) k = none := by
  induction M with
  | nil => rfl
  | cons p t ih =>
    simp only [eraseSession, List.filter_cons] at ih ⊢
    cases h : JVal.beq p.1 k with
    | true => simp only [h, Bool.not_true, Bool.false_eq_true, if_false]; exact ih
    | false =>
      simp only [lookupSession, List.find?, h] at ih ⊢
      exact ih

theorem mapHas_of_lookupSession {M : SessionMap} {k : JVal}
    {s : CoolingSession} (h : lookupSession M k = some s) :
    mapHas M k = true := by
  induction M with
  | nil => simp [lookupSession] at h
  | cons p t ih =>
    simp only [lookupSession, List.find?] at h
    simp only [mapHas, List.any_cons]
    cases hb : JVal.beq p.1 k with
    | true => simp
    | false =>
      rw [hb] at h
      simp only [Bool.false_or]
      exact ih h

/-- C4: when the power-status oracle reports powered-on during a cooling
session, the monitor's check counter is first incremented (so the
recorded index is at least 1) and exactly one `cooling_violation_error`
message is sent, terminal (`pipeline_complete = true`), whose
`violation_details` payload records the violation timestamp, the elapsed
and remaining cooling hours, and a `check_number` equal to the index of
the failing check. -/
theorem cooling_violation_outcome (newId pid : String) (now bootMin : Int)
    (reason : String) (s : CoolingSession) (M : SessionMap)
    (df : List (String × JVal)) (hd : s.server_details = JVal.o df) :
    (perform_power_check newId pid now (OracleResult.ok true bootMin reason) s M).1.check_count
      = s.check_count + 1 ∧
    1 ≤ (perform_power_check newId pid now (OracleResult.ok true bootMin reason) s M).1.check_count ∧
    ∃ msg,
      sentMsgs (perform_power_check newId pid now (OracleResult.ok true bootMin reason) s M).2.2
        = [msg] ∧
      isStrField msg "action" "cooling_violation_error" = true ∧
      isStrField msg "status" "violation_error" = true ∧
      getField msg "pipeline_complete" = some (JVal.b true) ∧
      subField (payloadField msg "violation_details") "violation_time"
        = some (JVal.s (isoStr now)) ∧
      subField (payloadField msg "violation_details") "cooling_elapsed_hours"
        = some (JVal.q (((now - s.cooling_start : Int) : Rat) / 3600)) ∧
      subField (payloadField msg "violation_details") "remaining_hours"
        = some (JVal.q (((s.cooling_end - now : Int) : Rat) / 3600)) ∧
      subField (payloadField msg "violation_details") "check_number"
        = some (JVal.i ((s.check_count + 1 : Nat) : Int)) := by
  refine ⟨?_, ?_, ?_⟩
  · simp [perform_power_check, check_server_power_status, hd, getField,
      truthyOpt, truthy, handle_cooling_violation]
  · simp [perform_power_check, check_server_power_status, hd, getField,
      truthyOpt, truthy, handle_cooling_violation]
  · refine ⟨cooling_violation_msg newId pid now
      { s with check_count := s.check_count + 1, last_check := some now }
      (check_server_power_status now (OracleResult.ok true bootMin reason)
        s.server_details), ?_, ?_, ?_, ?_, ?_, ?_, ?_, ?_⟩
    · simp only [perform_power_check, check_server_power_status, hd]
      simp only [getField, List.find?, truthyOpt, truthy]
      simp only [handle_cooling_violation]
      cases hB : mapHas M s.sidKey <;>
        simp [sentMsgs, hB, check_server_power_status, hd]
    all_goals
      simp [isStrField, getField, payloadField, dataObj, subField,
        cooling_violation_msg]

/-- C10: when the oracle reports powered-off — including the assume-off
dict produced when the oracle query raises — a power check sends no
message at all and changes nothing but the session's `check_count` and
`last_check` fields; the `cooling_status_update` message is still
constructed by `_send_status_update`, which never sends it. -/
theorem cooling_off_check_silent (newId pid : String) (now : Int)
    (r : OracleResult) (s : CoolingSession) (M : SessionMap)
    (hoff : truthyOpt (getField (check_server_power_status now r s.server_details)
      "is_powered_on") = false) :
    perform_power_check newId pid now r s M
      = ({ s with check_count := s.check_count + 1, last_check := some now }, M, []) ∧
    isStrField (cooling_status_update_msg newId pid now
      { s with check_count := s.check_count + 1, last_check := some now }
      (check_server_power_status now r s.server_details))
      "action" "cooling_status_update" = true ∧
    (∀ e, truthyOpt (getField (check_server_power_status now (OracleResult.exn e)
        s.server_details) "is_powered_on") = false) := by
  refine ⟨?_, ?_, fun e => ?_⟩
  · simp only [perform_power_check, hoff]
    simp [send_status_update]
  · simp [isStrField, cooling_status_update_msg, getField]
  · simp [check_server_power_status, powerExnDict, getField, truthyOpt, truthy]

/-- C5: the monitoring loop takes its completion branch only when the
wall clock has reached the session's `cooling_end`; with
`cooling_end = cooling_start + 48h` (as `process_message` stores it) the
elapsed time is then at least the configured cooling duration, and the
single message sent is the `demise_server`/`pending` successor carrying
the full cooling summary; the session is gone from the map afterwards. -/
theorem cooling_completion_outcome (newId pid : String) (now : Int)
    (r : OracleResult) (s : CoolingSession) (M : SessionMap)
    (hend : s.cooling_end = s.cooling_start + cooling_period_hours * 3600)
    (hfin : (monitor_step newId pid now r s M).finished = true) :
    s.cooling_end ≤ now ∧
    cooling_period_hours * 3600 ≤ now - s.cooling_start ∧
    sentMsgs (monitor_step newId pid now r s M).trace
      = [cooling_complete_msg newId pid now s] ∧
    isStrField (cooling_complete_msg newId pid now s) "action" "demise_server" = true ∧
    isStrField (cooling_complete_msg newId pid now s) "status" "pending" = true ∧
    subField (payloadField (cooling_complete_msg newId pid now s) "cooling_completion")
      "cooling_start" = some (JVal.s (isoStr s.cooling_start)) ∧
    subField (payloadField (cooling_complete_msg newId pid now s) "cooling_completion")
      "cooling_end" = some (JVal.s (isoStr s.cooling_end)) ∧
    subField (payloadField (cooling_complete_msg newId pid now s) "cooling_completion")
      "actual_completion" = some (JVal.s (isoStr now)) ∧
    subField (payloadField (cooling_complete_msg newId pid now s) "cooling_completion")
      "total_checks_performed" = some (JVal.i (s.check_count : Int)) ∧
    lookupSession (monitor_step newId pid now r s M).sessions s.sidKey = none := by
  by_cases h : s.cooling_end ≤ now
  · refine ⟨h, by omega, ?_, ?_, ?_, ?_, ?_, ?_, ?_, ?_⟩
    · simp only [monitor_step, if_pos h, handle_cooling_complete]
      cases hB : mapHas M s.sidKey <;> simp [sentMsgs, hB]
    · simp [isStrField, cooling_complete_msg, getField]
    · simp [isStrField, cooling_complete_msg, getField]
    · simp [subField, payloadField, dataObj, cooling_complete_msg, getField]
    · simp [subField, payloadField, dataObj, cooling_complete_msg, getField]
    · simp [subField, payloadField, dataObj, cooling_complete_msg, getField]
    · simp [subField, payloadField, dataObj, cooling_complete_msg, getField]
    · simp only [monitor_step, if_pos h, handle_cooling_complete]
      exact lookupSession_erase_self M s.sidKey
  · exfalso
    simp only [monitor_step, if_neg h] at hfin
    exact Bool.false_ne_true hfin

/-- C6: a `start_cooling_period` message for a server that already has
an active cooling session leaves the session map unchanged, starts no
second monitoring task, and is answered with the non-terminal
informational `cooling_status`/`info` acknowledgment. -/
theorem cooling_idempotent (newId pid : String) (now : Int) (M : SessionMap)
    (m : JObj) (d : JObj) (v : JVal) (s : CoolingSession)
    (hd : dataObj m = some d) (hv : getField d "server_id" = some v)
    (ht : truthy v = true) (hin : lookupSession M v = some s) :
    (cooling_process newId pid now M m).sessions = M ∧
    (cooling_process newId pid now M m).taskStarted = false ∧
    isStrField (cooling_process newId pid now M m).response
      "action" "cooling_status" = true ∧
    isStrField (cooling_process newId pid now M m).response
      "status" "info" = true ∧
    getField (cooling_process newId pid now M m).response
      "pipeline_complete" = none := by
  have hin' : mapHas M v = true := mapHas_of_lookupSession hin
  refine ⟨?_, ?_, ?_, ?_, ?_⟩ <;>
  · unfold cooling_process
    rw [hd]
    dsimp only
    rw [hv]
    dsimp only
    rw [ht, hin']
    simp [cooling_status_response, isStrField, getField]

/-- C7: in each of the three terminal branches of a cooling session
(violation, completion, internal monitoring error) the handler's trace
is exactly one send of that branch's terminal message followed by exactly
one removal of the session's key, and the session is absent from the map
afterwards. -/
theorem session_destroyed_once (newId pid : String) (now : Int)
    (s : CoolingSession) (p : JObj) (emsg : String) (M : SessionMap)
    (hin : mapHas M s.sidKey = true) :
    ((handle_cooling_violation newId pid now s p M).1
        = [CEvent.send (cooling_violation_msg newId pid now s p),
           CEvent.removeKey s.sidKey] ∧
     removals (handle_cooling_violation newId pid now s p M).1 = [s.sidKey] ∧
     lookupSession (handle_cooling_violation newId pid now s p M).2 s.sidKey = none ∧
     getField (cooling_violation_msg newId pid now s p) "pipeline_complete"
       = some (JVal.b true)) ∧
    ((handle_cooling_complete newId pid now s M).1
        = [CEvent.send (cooling_complete_msg newId pid now s),
           CEvent.removeKey s.sidKey] ∧
     removals (handle_cooling_complete newId pid now s M).1 = [s.sidKey] ∧
     lookupSession (handle_cooling_complete newId pid now s M).2 s.sidKey = none) ∧
    ((handle_cooling_error newId pid now s emsg M).1
        = [CEvent.send (cooling_monitor_error_msg newId pid now s emsg),
           CEvent.removeKey s.sidKey] ∧
     removals (handle_cooling_error newId pid now s emsg M).1 = [s.sidKey] ∧
     lookupSession (handle_cooling_error newId pid now s emsg M).2 s.sidKey = none ∧
     getField (cooling_monitor_error_msg newId pid now s emsg) "pipeline_complete"
       = some (JVal.b true)) := by
  refine ⟨⟨?_, ?_, ?_, ?_⟩, ⟨?_, ?_, ?_⟩, ⟨?_, ?_, ?_, ?_⟩⟩
  · simp [handle_cooling_violation, hin]
  · simp [handle_cooling_violation, hin, removals]
  · exact lookupSession_erase_self M s.sidKey
  · simp [cooling_violation_msg, getField]
  · simp [handle_cooling_complete, hin]
  · simp [handle_cooling_complete, hin, removals]
  · exact lookupSession_erase_self M s.sidKey
  · simp [handle_cooling_error, hin]
  · simp [handle_cooling_error, hin, removals]
  · exact lookupSession_erase_self M s.sidKey
  · simp [cooling_monitor_error_msg, getField]


/-- C8: a message whose payload lacks `server_id` makes every stage
answer immediately with its terminal error message
(`pipeline_complete = true`, human-readable `message`, original payload
carried unmodified), independently of the stage's external oracle; the
cooling stage additionally creates no session and starts no monitoring
task. -/
theorem missing_server_id_terminal (newId pid : String) (now : Int)
    (m : JObj) (d : JObj) (hd : dataObj m = some d)
    (hsid : getField d "server_id" = none) :
    (∀ p₁ p₂ : String → Bool,
       check_process p₁ newId pid now m = check_process p₂ newId pid now m) ∧
    (getField (check_process (fun _ => false) newId pid now m)
       "pipeline_complete" = some (JVal.b true) ∧
     getField (check_process (fun _ => false) newId pid now m)
       "data" = some (rawData m) ∧
     getField (check_process (fun _ => false) newId pid now m)
       "message" = some (JVal.s "Pipeline terminated: Server ID is required")) ∧
    (∀ r₁ r₂ : Bool,
       poweroff_process r₁ newId pid now m = poweroff_process r₂ newId pid now m) ∧
    (getField (poweroff_process false newId pid now m)
       "pipeline_complete" = some (JVal.b true) ∧
     getField (poweroff_process false newId pid now m)
       "data" = some (rawData m) ∧
     getField (poweroff_process false newId pid now m)
       "message" = some (JVal.s "Pipeline terminated: Server ID is required")) ∧
    (∀ r₁ r₂ : Bool,
       demise_process r₁ newId pid now m = demise_process r₂ newId pid now m) ∧
    (getField (demise_process false newId pid now m)
       "pipeline_complete" = some (JVal.b true) ∧
     getField (demise_process false newId pid now m)
       "data" = some (rawData m)) ∧
    (∀ M : SessionMap,
       (cooling_process newId pid now M m).sessions = M ∧
       (cooling_process newId pid now M m).taskStarted = false ∧
       getField (cooling_process newId pid now M m).response
         "pipeline_complete" = some (JVal.b true) ∧
       getField (cooling_process newId pid now M m).response
         "data" = some (rawData m) ∧
       getField (cooling_process newId pid now M m).response "message"
         = some (JVal.s
            "Cooling period failed: Server ID is required for cooling period")) := by
  refine ⟨fun p₁ p₂ => ?_, ⟨?_, ?_, ?_⟩, fun r₁ r₂ => ?_, ⟨?_, ?_, ?_⟩,
    fun r₁ r₂ => ?_, ⟨?_, ?_⟩, fun M => ⟨?_, ?_, ?_, ?_, ?_⟩⟩
  · unfold check_process; rw [hd]; dsimp only; rw [hsid]
  · unfold check_process; rw [hd]; dsimp only; rw [hsid]
    simp [check_error_response, getField]
  · unfold check_process; rw [hd]; dsimp only; rw [hsid]
    simp [check_error_response, getField, rawData]
  · unfold check_process; rw [hd]; dsimp only; rw [hsid]
    simp [check_error_response, getField]
  · unfold poweroff_process; rw [hd]; dsimp only; rw [hsid]
  · unfold poweroff_process; rw [hd]; dsimp only; rw [hsid]
    simp [poweroff_error_response, getField]
  · unfold poweroff_process; rw [hd]; dsimp only; rw [hsid]
    simp [poweroff_error_response, getField, rawData]
  · unfold poweroff_process; rw [hd]; dsimp only; rw [hsid]
    simp [poweroff_error_response, getField]
  · unfold demise_process; rw [hd]; dsimp only; rw [hsid]
  · unfold demise_process; rw [hd]; dsimp only; rw [hsid]
    simp [demise_error_response, getField]
  · unfold demise_process; rw [hd]; dsimp only; rw [hsid]
    simp [demise_error_response, getField, rawData]
  · unfold cooling_process; rw [hd]; dsimp only; rw [hsid]
  · unfold cooling_process; rw [hd]; dsimp only; rw [hsid]
  · unfold cooling_process; rw [hd]; dsimp only; rw [hsid]
    simp [cooling_error_response, getField]
  · unfold cooling_process; rw [hd]; dsimp only; rw [hsid]
    simp [cooling_error_response, getField, rawData]
  · unfold cooling_process; rw [hd]; dsimp only; rw [hsid]
    simp [cooling_error_response, getField]

theorem cooling_violation_outcome_witness :
    sampleSession.server_details = JVal.o [("ip_address", JVal.s "192.168.1.150")] ∧
    (perform_power_check "u" "p" 2000 (OracleResult.ok true 5 "wake_on_lan")
      sampleSession []).1.check_count = 1 ∧
    1 ≤ (perform_power_check "u" "p" 2000 (OracleResult.ok true 5 "wake_on_lan")
      sampleSession []).1.check_count :=
  ⟨rfl,
   (cooling_violation_outcome "u" "p" 2000 5 "wake_on_lan" sampleSession []
      [("ip_address", JVal.s "192.168.1.150")] rfl).1,
   (cooling_violation_outcome "u" "p" 2000 5 "wake_on_lan" sampleSession []
      [("ip_address", JVal.s "192.168.1.150")] rfl).2.1⟩

theorem cooling_completion_outcome_witness :
    (monitor_step "u" "p" (1000 + cooling_period_hours * 3600)
      (OracleResult.ok false 0 "") sampleSession []).finished = true ∧
    sampleSession.cooling_end = sampleSession.cooling_start
      + cooling_period_hours * 3600 ∧
    sampleSession.cooling_end ≤ 1000 + cooling_period_hours * 3600 :=
  ⟨by decide, rfl,
   (cooling_completion_outcome "u" "p" (1000 + cooling_period_hours * 3600)
      (OracleResult.ok false 0 "") sampleSession [] rfl (by decide)).1⟩

theorem cooling_idempotent_witness :
    dataObj sampleCoolingMsg = some
      [("server_id", JVal.s "150"),
       ("server_details", JVal.o [("ip_address", JVal.s "192.168.1.150")]),
       ("poweroff_timestamp", JVal.s "100")] ∧
    lookupSession [(JVal.s "150", sampleSession)] (JVal.s "150")
      = some sampleSession ∧
    (cooling_process "u" "p" 2000 [(JVal.s "150", sampleSession)]
      sampleCoolingMsg).sessions = [(JVal.s "150", sampleSession)] ∧
    (cooling_process "u" "p" 2000 [(JVal.s "150", sampleSession)]
      sampleCoolingMsg).taskStarted = false :=
  ⟨rfl, rfl,
   (cooling_idempotent "u" "p" 2000 [(JVal.s "150", sampleSession)]
      sampleCoolingMsg _ (JVal.s "150") sampleSession rfl rfl rfl rfl).1,
   (cooling_idempotent "u" "p" 2000 [(JVal.s "150", sampleSession)]
      sampleCoolingMsg _ (JVal.s "150") sampleSession rfl rfl rfl rfl).2.1⟩

theorem session_destroyed_once_witness :
    mapHas [(JVal.s "150", sampleSession)] sampleSession.sidKey = true ∧
    removals (handle_cooling_complete "u" "p" 2000 sampleSession
      [(JVal.s "150", sampleSession)]).1 = [sampleSession.sidKey] ∧
    lookupSession (handle_cooling_violation "u" "p" 2000 sampleSession []
      [(JVal.s "150", sampleSession)]).2 sampleSession.sidKey = none :=
  ⟨rfl,
   (session_destroyed_once "u" "p" 2000 sampleSession [] "worker crashed"
      [(JVal.s "150", sampleSession)] rfl).2.1.2.1,
   (session_destroyed_once "u" "p" 2000 sampleSession [] "worker crashed"
      [(JVal.s "150", sampleSession)] rfl).1.2.2.1⟩

theorem missing_server_id_terminal_witness :
    dataObj [("action", JVal.s "check_server"), ("status", JVal.s "pending"),
      ("data", JVal.o [])] = some [] ∧
    getField ([] : JObj) "server_id" = none ∧
    getField (check_process (fun _ => false) "u" "p" 0
      [("action", JVal.s "check_server"), ("status", JVal.s "pending"),
       ("data", JVal.o [])]) "pipeline_complete" = some (JVal.b true) ∧
    (∀ M : SessionMap,
      (cooling_process "u" "p" 0 M
        [("action", JVal.s "check_server"), ("status", JVal.s "pending"),
         ("data", JVal.o [])]).sessions = M) :=
  ⟨rfl, rfl,
   (missing_server_id_terminal "u" "p" 0
      [("action", JVal.s "check_server"), ("status", JVal.s "pending"),
       ("data", JVal.o [])] [] rfl rfl).2.1.1,
   fun M => ((missing_server_id_terminal "u" "p" 0
      [("action", JVal.s "check_server"), ("status", JVal.s "pending"),
       ("data", JVal.o [])] [] rfl rfl).2.2.2.2.2.2 M).1⟩

theorem cooling_off_check_silent_witness :
    truthyOpt (getField (check_server_power_status 2000 (OracleResult.exn "boom")
      sampleSession.server_details) "is_powered_on") = false ∧
    perform_power_check "u" "p" 2000 (OracleResult.exn "boom") sampleSession []
      = ({ sampleSession with check_count := 1, last_check := some 2000 }, [], []) :=
  ⟨rfl,
   (cooling_off_check_silent "u" "p" 2000 (OracleResult.exn "boom")
      sampleSession [] rfl).1⟩
